import Mathlib

/-!
Verification development for the AI-vs-Human text classifier repository
(`detector.py`, `app.py`, `fastapi_app.py`).

Shallow embedding conventions:
* Python floats are modelled as rationals (`ℚ`); every comparison in the
  source is a strict or non-strict order comparison that transfers verbatim.
* The fitted scikit-learn objects (`TfidfVectorizer`, `MultinomialNB`) are
  opaque handles in the source; their fitted state is modelled as the
  functions the source actually calls on them (`transform`,
  `predict_proba`), with the internals the source never inspects left
  abstract or modelled from the specification where a claim needs them.
* The filesystem is modelled as a lookup function from path strings, and
  `joblib` serialization as storing the dumped value itself (joblib
  round-trips values faithfully).
* Methods that can raise return `Except`; stateful methods additionally
  return the (possibly updated) `self`, mirroring every assignment to
  `self.*` in the source.
-/

/-- A fitted TF-IDF vectorizer.  The source only ever calls
`vectorizer.transform([text])` and reads row 0 of the result, so the fitted
state is modelled as that single-text transform, producing a dense view of
the feature vector as a list of rational weights. -/
structure TfidfVectorizer where
  transform : String → List ℚ

/-- A fitted multinomial naive-Bayes classifier.
`classes_` is the class list exposed by scikit-learn.

Modelled from the spec: scikit-learn's `MultinomialNB.predict_proba` is not
part of this repository's sources; per spec §4.2 it computes a per-class
joint score, exponentiates (after subtracting the maximum) and normalizes.
`scores` models the per-class post-exponentiation weights (one per entry of
`classes_`), which are strictly positive for a fitted model since they are
exponentials; `predict_proba` below performs the normalization step. -/
structure MultinomialNB where
  classes_ : List ℤ
  scores : List ℚ → List ℚ

/-- Modelled from the spec (§4.2): `predict_proba` for a single example
normalizes the positive per-class weights so they sum to 1. -/
def MultinomialNB.predict_proba (c : MultinomialNB) (x : List ℚ) : List ℚ :=
  (c.scores x).map (fun w => w / (c.scores x).sum)

/-- Modelled from the spec (§4.2): scikit-learn's `predict` returns the
class with the maximal score; `np.argmax` returns the first maximal index. -/
def argmaxIdx : List ℚ → Option ℕ
  | [] => none
  | w :: ws =>
    match argmaxIdx ws with
    | none => some 0
    | some j => if (w :: ws).get? (j + 1) |>.any (fun m => w < m) then some (j + 1) else some 0

/-- Modelled from the spec (§4.2): class prediction = `classes_[argmax(scores)]`. -/
def MultinomialNB.predictClass (c : MultinomialNB) (x : List ℚ) : Option ℤ :=
  (argmaxIdx (c.scores x)).bind (fun i => c.classes_.get? i)

/-- The detector facade's instance state: the hyperparameters and the two
model slots set in `AITextDetector.__init__` (detector.py lines 16-25). -/
structure AITextDetector where
  max_features : ℕ
  ngram_range : ℕ × ℕ
  alpha : ℚ
  min_df : ℕ
  max_df : ℚ
  vectorizer : Option TfidfVectorizer
  classifier : Option MultinomialNB
  is_trained : Bool

/-- `AITextDetector.__init__`: max_features=15000, ngram_range=(1,3),
alpha=0.01, min_df=2, max_df=0.9, no models, not trained. -/
def initDetector : AITextDetector :=
  { max_features := 15000
    ngram_range := (1, 3)
    alpha := 1/100
    min_df := 2
    max_df := 9/10
    vectorizer := none
    classifier := none
    is_trained := false }

/-- The ways `predict` can raise in Python: the explicit
`ValueError("Model not loaded!")` guard, an `AttributeError` from calling a
method on a `None` model, a `KeyError` from `class_to_idx[...]`, or an
`IndexError` from `probs[...]`. -/
inductive PredErr where
  | notLoaded
  | nullModel
  | keyError
  | indexError
deriving DecidableEq, Repr

/-- Helper for `dictIndex`: position (counting from `i`) of the last
occurrence of `c` in the list. -/
def dictIndexAux (c : ℤ) : List ℤ → ℕ → Option ℕ
  | [], _ => none
  | x :: xs, i =>
    match dictIndexAux c xs (i + 1) with
    | some j => some j
    | none => if x = c then some i else none

/-- Python dict lookup for `class_to_idx = dict built by enumerate(classes_)`:
when a key repeats, the last index wins (later dict insertions overwrite). -/
def dictIndex (classes : List ℤ) (c : ℤ) : Option ℕ :=
  dictIndexAux c classes 0

/-- `AITextDetector.predict` (detector.py lines 100-113), with the state
threaded explicitly.  The method body contains no assignment to `self`, so
every branch returns the input state unchanged.  Branches mirror the
source line by line: the not-trained guard, `vectorizer.transform([text])`,
`classifier.predict_proba(X)[0]`, the `class_to_idx` dictionary lookups for
classes 0 and 1, the probability indexing, and the strict-majority label
rule `"AI" if ai_prob > 0.5 else "Human"`. -/
def AITextDetector.predictS (d : AITextDetector) (text : String) :
    Except PredErr (String × ℚ × ℚ) × AITextDetector :=
  if d.is_trained = false then (.error .notLoaded, d) else
  match d.vectorizer with
  | none => (.error .nullModel, d)
  | some v =>
    match d.classifier with
    | none => (.error .nullModel, d)
    | some c =>
      let X := v.transform text
      let probs := c.predict_proba X
      match dictIndex c.classes_ 0 with
      | none => (.error .keyError, d)
      | some humanIdx =>
        match probs.get? humanIdx with
        | none => (.error .indexError, d)
        | some human_prob =>
          match dictIndex c.classes_ 1 with
          | none => (.error .keyError, d)
          | some aiIdx =>
            match probs.get? aiIdx with
            | none => (.error .indexError, d)
            | some ai_prob =>
              let label := if ai_prob > 1/2 then "AI" else "Human"
              (.ok (label, ai_prob, human_prob), d)

instance {ε α : Type} [DecidableEq ε] [DecidableEq α] : DecidableEq (Except ε α) := fun a b =>
  match a, b with
  | .error e, .error f =>
    if h : e = f then .isTrue (by rw [h]) else .isFalse (by intro hc; cases hc; exact h rfl)
  | .error _, .ok _ => .isFalse (by intro hc; cases hc)
  | .ok _, .error _ => .isFalse (by intro hc; cases hc)
  | .ok x, .ok y =>
    if h : x = y then .isTrue (by rw [h]) else .isFalse (by intro hc; cases hc; exact h rfl)

/-- A concrete fitted vectorizer used to exercise the definitions. -/
def constVectorizer : TfidfVectorizer := ⟨fun _ => [1]⟩

/-- A concrete fitted binary classifier: classes [0, 1] with constant
positive weights (1, 3), so `predict_proba` yields (1/4, 3/4). -/
def toyNB : MultinomialNB := { classes_ := [0, 1], scores := fun _ => [1, 3] }

/-- A trained detector built from the toy fitted objects. -/
def toyDetector : AITextDetector :=
  { initDetector with
      vectorizer := some constVectorizer
      classifier := some toyNB
      is_trained := true }

example : (toyDetector.predictS "hello").1 = .ok ("AI", 3/4, 1/4) := by
  norm_num [toyDetector, AITextDetector.predictS, toyNB, constVectorizer,
    MultinomialNB.predict_proba, dictIndex, dictIndexAux, initDetector]

/-- Python 3 `round` of a rational to the nearest integer, ties to even. -/
def pyRoundInt (q : ℚ) : ℤ :=
  let f := ⌊q⌋
  let r := q - f
  if r < 1/2 then f
  else if 1/2 < r then f + 1
  else if f % 2 = 0 then f else f + 1

/-- Python `round(x, 4)`: round to 4 decimal places, ties to even. -/
def round4 (q : ℚ) : ℚ := (pyRoundInt (q * 10000) : ℚ) / 10000

/-- Python `str.strip()`: drop leading and trailing whitespace. -/
def pyStrip (s : String) : String :=
  ⟨((s.data.dropWhile Char.isWhitespace).reverse.dropWhile Char.isWhitespace).reverse⟩

/-- Helper for `wordCount`: split a character stream into maximal
whitespace-free chunks, carrying the current chunk reversed. -/
def wordsAux : List Char → List Char → List (List Char)
  | [], acc => if acc.isEmpty then [] else [acc.reverse]
  | c :: cs, acc =>
    if c.isWhitespace then
      if acc.isEmpty then wordsAux cs [] else acc.reverse :: wordsAux cs []
    else wordsAux cs (c :: acc)

/-- Python `len(text.split())`: number of maximal whitespace-free chunks. -/
def wordCount (text : String) : ℕ :=
  (wordsAux text.data []).length

/-- The confidence banding in the Flask `/predict` handler
(app.py lines 69-77): strict thresholds 0.8 / 0.5 / 0.2 over
`certainty = abs(ai_prob - human_prob)`. -/
def flaskConfidence (certainty : ℚ) : String :=
  if certainty > 4/5 then "very_high"
  else if certainty > 1/2 then "high"
  else if certainty > 1/5 then "medium"
  else "low"

/-- The confidence banding in the FastAPI `/predict` handler
(fastapi_app.py lines 121-129), textually identical to the Flask one. -/
def fastapiConfidence (certainty : ℚ) : String :=
  if certainty > 4/5 then "very_high"
  else if certainty > 1/2 then "high"
  else if certainty > 1/5 then "medium"
  else "low"

/-- The JSON payload both surfaces build on a successful prediction. -/
structure PredictPayload where
  label : String
  ai_probability : ℚ
  human_probability : ℚ
  confidence : String
  certainty : ℚ
  text_length : ℕ
  word_count : ℕ
deriving DecidableEq, Repr

/-- An HTTP response body: either the success payload or an error message
(`{"error": msg}` in Flask, `{"detail": msg}` in FastAPI). -/
inductive HttpBody where
  | payload (p : PredictPayload)
  | errMsg (msg : String)
deriving DecidableEq, Repr

/-- `str(e)` for the exceptions `predict` can raise, used by both HTTP
handlers when the surrounding `try` catches the exception. -/
def PredErr.message : PredErr → String
  | .notLoaded => "Model not loaded!"
  | .nullModel => "NoneType object has no attribute"
  | .keyError => "KeyError"
  | .indexError => "IndexError"

/-- Python dict lookup in a string-to-string JSON object; on duplicate keys
the last value wins. -/
def dictGetS (kvs : List (String × String)) (k : String) : Option String :=
  ((kvs.filter (fun p => p.1 = k)).getLast?).map (fun p => p.2)

/-- The Flask `/predict` handler (app.py lines 48-90).  The request body is
`none` when `request.get_json()` yields nothing falsy-parseable (no JSON
body / `None` / empty object — all make `not data` true), otherwise the
parsed string-valued JSON object.  Mirrors the source order: the
`is_trained` check first (500), then the missing-field check (400), then
the emptiness check on the stripped text (400), then prediction; any
exception from `predict` is caught by the surrounding `try` and returned
as a 500 with the message. -/
def flaskPredict (d : AITextDetector)
    (data : Option (List (String × String))) : ℕ × HttpBody :=
  if d.is_trained = false then (500, .errMsg "Model not loaded") else
  match data with
  | none => (400, .errMsg "Missing \"text\" field")
  | some kvs =>
    match dictGetS kvs "text" with
    | none => (400, .errMsg "Missing \"text\" field")
    | some raw =>
      let text := pyStrip raw
      if text = "" then (400, .errMsg "Text cannot be empty")
      else
        match (d.predictS text).1 with
        | .error e => (500, .errMsg e.message)
        | .ok (label, ai_prob, human_prob) =>
          let certainty := |ai_prob - human_prob|
          (200, .payload
            { label := label
              ai_probability := round4 ai_prob
              human_probability := round4 human_prob
              confidence := flaskConfidence certainty
              certainty := round4 certainty
              text_length := text.length
              word_count := wordCount text })

/-- The pydantic validation of `PredictRequest` (fastapi_app.py lines
44-51): the `text` field is required, and the `text_not_empty` validator
rejects whitespace-only text and otherwise replaces the value with its
stripped form.  FastAPI runs this before the handler and surfaces a
failure as a 422 validation response. -/
def pydanticValidate (body : Option (List (String × String))) :
    Except String String :=
  match body with
  | none => .error "field required"
  | some kvs =>
    match dictGetS kvs "text" with
    | none => .error "field required"
    | some v => if pyStrip v = "" then .error "Text cannot be empty" else .ok (pyStrip v)

/-- The FastAPI `/predict` handler body (fastapi_app.py lines 96-142),
taking the already-validated (stripped) text: the `is_trained` check raises
a 500 `HTTPException`, prediction errors are caught and re-raised as 500;
otherwise the payload mirrors the Flask one with the FastAPI band. -/
def fastapiHandler (d : AITextDetector) (text : String) : ℕ × HttpBody :=
  if d.is_trained = false then (500, .errMsg "Model not loaded") else
  match (d.predictS text).1 with
  | .error e => (500, .errMsg e.message)
  | .ok (label, ai_prob, human_prob) =>
    let certainty := |ai_prob - human_prob|
    (200, .payload
      { label := label
        ai_probability := round4 ai_prob
        human_probability := round4 human_prob
        confidence := fastapiConfidence certainty
        certainty := round4 certainty
        text_length := text.length
        word_count := wordCount text })

/-- The full FastAPI `/predict` surface: pydantic validation (422 on
failure) followed by the handler. -/
def fastapiPredict (d : AITextDetector)
    (body : Option (List (String × String))) : ℕ × HttpBody :=
  match pydanticValidate body with
  | .error msg => (422, .errMsg msg)
  | .ok text => fastapiHandler d text

/-- `os.path.join(model_dir, f)` for the paths this code builds. -/
def joinPath (dir f : String) : String := dir ++ "/" ++ f

/-- The three artifact file names of `model_exists` / `save_model` /
`load_model` (detector.py line 29). -/
def artifactFiles : List String :=
  ["vectorizer.joblib", "classifier.joblib", "config.joblib"]

/-- `AITextDetector.model_exists` (detector.py lines 27-30) over a
filesystem modelled as an `os.path.exists` predicate on paths. -/
def model_exists (fs : String → Bool) (model_dir : String) : Bool :=
  artifactFiles.all (fun f => fs (joinPath model_dir f))

/-- A serialized blob as written by `joblib.dump`: the dumped vectorizer
(possibly `None`), the dumped classifier (possibly `None`), or the config
dictionary with the three hyperparameters. -/
inductive Blob where
  | vecB (v : Option TfidfVectorizer)
  | clfB (c : Option MultinomialNB)
  | cfgB (max_features : ℕ) (ngram_range : ℕ × ℕ) (alpha : ℚ)

/-- A blob filesystem: path → stored blob, if the file exists. -/
def BlobStore := String → Option Blob

/-- The empty blob filesystem. -/
def emptyStore : BlobStore := fun _ => none

/-- `AITextDetector.save_model` (detector.py lines 78-88): dumps the
vectorizer, the classifier and the config dict to the three artifact paths,
leaving every other path untouched.  It does not read or change the
detector state. -/
def save_model (d : AITextDetector) (model_dir : String) (fs : BlobStore) :
    BlobStore := fun p =>
  if p = joinPath model_dir "vectorizer.joblib" then some (.vecB d.vectorizer)
  else if p = joinPath model_dir "classifier.joblib" then some (.clfB d.classifier)
  else if p = joinPath model_dir "config.joblib" then
    some (.cfgB d.max_features d.ngram_range d.alpha)
  else fs p

/-- `AITextDetector.load_model` (detector.py lines 90-98): loads the three
blobs (failing if any is missing or of the wrong shape, as `joblib.load`
raises on missing or corrupt files), overwrites the model slots and the
hyperparameters, and sets `is_trained = True`. -/
def load_model (d : AITextDetector) (model_dir : String) (fs : BlobStore) :
    Except String AITextDetector :=
  match fs (joinPath model_dir "vectorizer.joblib") with
  | some (.vecB v) =>
    match fs (joinPath model_dir "classifier.joblib") with
    | some (.clfB c) =>
      match fs (joinPath model_dir "config.joblib") with
      | some (.cfgB mf ng a) =>
        .ok { d with
                vectorizer := v
                classifier := c
                max_features := mf
                ngram_range := ng
                alpha := a
                is_trained := true }
      | _ => .error "cannot load config.joblib"
    | _ => .error "cannot load classifier.joblib"
  | _ => .error "cannot load vectorizer.joblib"

/-- Modelled from the spec: the scikit-learn training entry points called
by `AITextDetector.train` are not part of this repository's sources.  Per
spec §8 they are deterministic given the data and the random seed, so each
is modelled as a pure function: `fitTfidf` takes the four vectorizer
hyperparameters and the corpus; `trainTestSplit` takes the vectorized
labelled data, the test fraction and the `random_state` seed and returns
the (train, test) pair; `fitMultinomialNB` takes `alpha`, `fit_prior` and
the training split. -/
structure SkLib where
  fitTfidf : ℕ → ℕ × ℕ → ℕ → ℚ → List String → TfidfVectorizer
  trainTestSplit : List (List ℚ × ℤ) → ℚ → ℕ → List (List ℚ × ℤ) × List (List ℚ × ℤ)
  fitMultinomialNB : ℚ → Bool → List (List ℚ × ℤ) → MultinomialNB

/-- `sklearn.metrics.accuracy_score`: fraction of positions where the
prediction equals the true label. -/
def accuracy_score (yTrue : List ℤ) (yPred : List (Option ℤ)) : ℚ :=
  ((yTrue.zip yPred).filter (fun p => p.2 = some p.1)).length / yTrue.length

/-- `AITextDetector.train` (detector.py lines 32-76) over an in-memory
dataset (the parsed CSV rows `(text, generated)`): fit the vectorizer on
all texts with the instance hyperparameters, transform the corpus, split
with `random_state=42`, fit the classifier with the instance `alpha` and
`fit_prior=True` on the training split, evaluate accuracy on the held-out
split, set `is_trained = True`, return the updated state and the accuracy.
Console printing and the classification report / confusion matrix are
side-effect-free reporting and are omitted. -/
def train (lib : SkLib) (d : AITextDetector) (data : List (String × ℤ))
    (test_size : ℚ := 1/5) : AITextDetector × ℚ :=
  let X_text := data.map (fun r => r.1)
  let y := data.map (fun r => r.2)
  let vectorizer := lib.fitTfidf d.max_features d.ngram_range d.min_df d.max_df X_text
  let X := X_text.map vectorizer.transform
  let split := lib.trainTestSplit (X.zip y) test_size 42
  let classifier := lib.fitMultinomialNB d.alpha true split.1
  let y_pred := split.2.map (fun p => classifier.predictClass p.1)
  let accuracy := accuracy_score (split.2.map (fun p => p.2)) y_pred
  ({ d with
       vectorizer := some vectorizer
       classifier := some classifier
       is_trained := true },
   accuracy)

/-- A trivial concrete instance of the modelled library, used to exercise
the definitions on closed inputs. -/
def trivialLib : SkLib :=
  { fitTfidf := fun _ _ _ _ _ => constVectorizer
    trainTestSplit := fun rows _ _ => (rows, rows)
    fitMultinomialNB := fun _ _ _ => toyNB }

/-- The states of one service process: the facade instance together with
the blob filesystem it saves to and loads from. -/
def SysState := AITextDetector × BlobStore

/-- The states reachable by sequences of the five facade operations
(construction, `train`, `save_model`, `load_model`, `predict`) starting
from a fresh instance and an empty model directory, with the filesystem
threaded through `save_model`/`load_model`. -/
inductive Reachable (lib : SkLib) : SysState → Prop where
  | construct : Reachable lib (initDetector, emptyStore)
  | trainStep : ∀ d fs data ts, Reachable lib (d, fs) →
      Reachable lib ((train lib d data ts).1, fs)
  | saveStep : ∀ d fs dir, Reachable lib (d, fs) →
      Reachable lib (d, save_model d dir fs)
  | loadStep : ∀ d fs dir d2, Reachable lib (d, fs) →
      load_model d dir fs = .ok d2 → Reachable lib (d2, fs)
  | predictStep : ∀ d fs t, Reachable lib (d, fs) →
      Reachable lib ((d.predictS t).2, fs)

/-- Like `Reachable`, but `save_model` is only invoked on a trained
detector (artifacts of an untrained instance are never written). -/
inductive ReachableT (lib : SkLib) : SysState → Prop where
  | construct : ReachableT lib (initDetector, emptyStore)
  | trainStep : ∀ d fs data ts, ReachableT lib (d, fs) →
      ReachableT lib ((train lib d data ts).1, fs)
  | saveStep : ∀ d fs dir, ReachableT lib (d, fs) → d.is_trained = true →
      ReachableT lib (d, save_model d dir fs)
  | loadStep : ∀ d fs dir d2, ReachableT lib (d, fs) →
      load_model d dir fs = .ok d2 → ReachableT lib (d2, fs)
  | predictStep : ∀ d fs t, ReachableT lib (d, fs) →
      ReachableT lib ((d.predictS t).2, fs)

/-- The detector-side invariant of claim C10: a trained state holds actual
(non-`None`) fitted model objects. -/
def DetInv (d : AITextDetector) : Prop :=
  d.is_trained = true → d.vectorizer.isSome ∧ d.classifier.isSome

/-- The store-side invariant of claim C10: every serialized vectorizer or
classifier blob on disk holds an actual fitted object, not `None`. -/
def StoreInv (fs : BlobStore) : Prop :=
  (∀ p v, fs p = some (.vecB v) → v.isSome) ∧
  (∀ p c, fs p = some (.clfB c) → c.isSome)

/-- The detector produced by `load_model` on a fresh instance from a
directory just written by `save_model d`: `d`'s model slots and saved
hyperparameters over the fresh defaults, with `is_trained = True`. -/
def loadedFrom (d : AITextDetector) : AITextDetector :=
  { initDetector with
      vectorizer := d.vectorizer
      classifier := d.classifier
      max_features := d.max_features
      ngram_range := d.ngram_range
      alpha := d.alpha
      is_trained := true }

/-- The system state after: construct, `save_model("model")`,
`load_model("model")` — saving an untrained fresh detector and loading the
resulting artifacts back. -/
def badState : SysState :=
  ({ initDetector with is_trained := true },
   save_model initDetector "model" emptyStore)

/-- A detector trained through the modelled library on a tiny dataset. -/
def trainedToy : AITextDetector :=
  (train trivialLib initDetector [("a", 0), ("b", 1)] (1/5)).1

theorem joinPath_inj (dir : String) {a b : String}
    (h : joinPath dir a = joinPath dir b) : a = b := by
  unfold joinPath at h
  have hd := congrArg String.data h
  simp only [String.data_append] at hd
  exact String.ext (List.append_cancel_left hd)

theorem predictS_state_eq (d : AITextDetector) (t : String) :
    (d.predictS t).2 = d := by
  unfold AITextDetector.predictS
  dsimp only
  repeat' split
  all_goals rfl

/-- C1: whenever `AITextDetector.predict` succeeds, the returned label is
"AI" exactly when the returned AI probability is strictly greater than
0.5; at exactly 0.5 the label is "Human" (strict majority rule of
detector.py line 112). -/
theorem C1_label_strict_majority (d : AITextDetector) (t : String)
    (label : String) (ai hp : ℚ)
    (h : (d.predictS t).1 = .ok (label, ai, hp)) :
    (label = "AI" ↔ ai > 1/2) ∧ (ai = 1/2 → label = "Human") := by
  unfold AITextDetector.predictS at h
  dsimp only at h
  repeat' split at h
  any_goals exact Except.noConfusion h
  · rename_i hgt
    simp only [Except.ok.injEq, Prod.mk.injEq] at h
    obtain ⟨h1, h2, h3⟩ := h
    subst h1; subst h2
    refine ⟨⟨fun _ => hgt, fun _ => rfl⟩, fun heq => ?_⟩
    rw [heq] at hgt; norm_num at hgt
  · rename_i hle
    simp only [Except.ok.injEq, Prod.mk.injEq] at h
    obtain ⟨h1, h2, h3⟩ := h
    subst h1; subst h2
    refine ⟨⟨fun hAI => absurd hAI (by decide), fun hgt => absurd hgt hle⟩, fun _ => rfl⟩

/-- Witness for C1 at the toy trained detector: predict returns
("AI", 3/4, 1/4) and the conclusion holds there. -/
theorem C1_label_witness :
    (toyDetector.predictS "sample").1 = .ok ("AI", 3/4, 1/4) ∧
    (("AI" = "AI") ↔ (3/4 : ℚ) > 1/2) ∧ ((3/4 : ℚ) = 1/2 → "AI" = "Human") := by
  have hp : (toyDetector.predictS "sample").1 = .ok ("AI", 3/4, 1/4) := by
    norm_num [toyDetector, AITextDetector.predictS, toyNB, constVectorizer,
      MultinomialNB.predict_proba, dictIndex, dictIndexAux, initDetector]
  exact ⟨hp, C1_label_strict_majority toyDetector "sample" "AI" (3/4) (1/4) hp⟩

/-- C2: the confidence band computed by the Flask handler and the FastAPI
handler is the same pure function of certainty, characterized by the
strict thresholds 0.8, 0.5, 0.2, each boundary value falling into the
lower band. -/
theorem C2_confidence_band (c : ℚ) (_h0 : 0 ≤ c) (_h1 : c ≤ 1) :
    flaskConfidence c = fastapiConfidence c ∧
    (flaskConfidence c = "very_high" ↔ 4/5 < c) ∧
    (flaskConfidence c = "high" ↔ 1/2 < c ∧ c ≤ 4/5) ∧
    (flaskConfidence c = "medium" ↔ 1/5 < c ∧ c ≤ 1/2) ∧
    (flaskConfidence c = "low" ↔ c ≤ 1/5) := by
  refine ⟨rfl, ?_, ?_, ?_, ?_⟩ <;>
    · unfold flaskConfidence
      split_ifs with hA hB hC <;>
        constructor <;> intro h <;>
          first
          | linarith
          | (exact absurd h (by decide))
          | (constructor <;> linarith)

/-- Witness for C2 at the boundary certainty 0.8: both surfaces give
"high", not "very_high". -/
theorem C2_confidence_witness :
    (0:ℚ) ≤ 4/5 ∧ (4/5:ℚ) ≤ 1 ∧ flaskConfidence (4/5) = fastapiConfidence (4/5) ∧
    flaskConfidence (4/5) = "high" := by
  refine ⟨by norm_num, by norm_num, (C2_confidence_band (4/5) (by norm_num) (by norm_num)).1, ?_⟩
  exact ((C2_confidence_band (4/5) (by norm_num) (by norm_num)).2.2.1).mpr (by norm_num)

/-- C4: with no model trained or loaded, `predict` fails with the explicit
not-trained error, the Flask `/predict` returns a 500 with an explicit
error body, and the FastAPI `/predict` returns a 500 with an explicit
error body on every request that reaches the handler. -/
theorem C4_not_trained_500 (d : AITextDetector) (h : d.is_trained = false) :
    (∀ t, (d.predictS t).1 = .error .notLoaded) ∧
    (∀ body, flaskPredict d body = (500, .errMsg "Model not loaded")) ∧
    (∀ body t, pydanticValidate body = .ok t →
      fastapiPredict d body = (500, .errMsg "Model not loaded")) := by
  refine ⟨?_, ?_, ?_⟩
  · intro t
    unfold AITextDetector.predictS
    simp [h]
  · intro body
    unfold flaskPredict
    simp [h]
  · intro body t hv
    unfold fastapiPredict fastapiHandler
    simp [hv, h]

/-- Witness for C4 at a fresh detector and a well-formed request body. -/
theorem C4_not_trained_witness :
    initDetector.is_trained = false ∧
    (initDetector.predictS "hi").1 = .error .notLoaded ∧
    flaskPredict initDetector (some [("text", "hi")]) = (500, .errMsg "Model not loaded") ∧
    fastapiPredict initDetector (some [("text", "hi")]) = (500, .errMsg "Model not loaded") := by
  have h := C4_not_trained_500 initDetector rfl
  exact ⟨rfl, h.1 "hi", h.2.1 _, h.2.2 (some [("text", "hi")]) "hi" rfl⟩

/-- Counterexample to C5 as stated: a request with no body sent to the
Flask surface while no model is loaded gets a 500 (the handler checks
`is_trained` before validating the body), not a 400-class response. -/
theorem C5_counterexample :
    flaskPredict initDetector none = (500, .errMsg "Model not loaded") := by
  unfold flaskPredict
  simp [initDetector]

/-- C5 (amended): for every request whose body lacks the `text` field or
whose text is empty after trimming, the Flask surface returns a 400
provided its model is loaded (otherwise its leading `is_trained` check
answers 500 first), and the FastAPI surface returns a 400-class (422)
validation response regardless of model state; neither path reaches
`predict`. -/
theorem C5_validation_400 (d : AITextDetector)
    (body : Option (List (String × String)))
    (hbad : ∀ s, body.bind (fun kvs => dictGetS kvs "text") = some s → pyStrip s = "") :
    (d.is_trained = true → (flaskPredict d body).1 = 400) ∧
    400 ≤ (fastapiPredict d body).1 ∧ (fastapiPredict d body).1 < 500 := by
  match body with
  | none =>
    refine ⟨fun ht => ?_, ?_, ?_⟩ <;>
      simp [flaskPredict, fastapiPredict, pydanticValidate, *]
  | some kvs =>
    match hres : dictGetS kvs "text" with
    | none =>
      refine ⟨fun ht => ?_, ?_, ?_⟩ <;>
        simp [flaskPredict, fastapiPredict, pydanticValidate, hres, *]
    | some raw =>
      have htrim : pyStrip raw = "" := hbad raw (by simp [hres])
      refine ⟨fun ht => ?_, ?_, ?_⟩ <;>
        simp [flaskPredict, fastapiPredict, pydanticValidate, hres, htrim, *]

/-- Witness for C5 (amended): a loaded detector and a whitespace-only
text give 400 on Flask and 422 on FastAPI. -/
theorem C5_validation_witness :
    toyDetector.is_trained = true ∧
    (flaskPredict toyDetector (some [("text", "   ")])).1 = 400 ∧
    400 ≤ (fastapiPredict toyDetector (some [("text", "   ")])).1 ∧
    (fastapiPredict toyDetector (some [("text", "   ")])).1 < 500 := by
  have h := C5_validation_400 toyDetector (some [("text", "   ")])
    (by intro s hs; simp [dictGetS] at hs; subst hs; rfl)
  exact ⟨rfl, h.1 rfl, h.2.1, h.2.2⟩

/-- C6: `model_exists` is true exactly when all three artifact files are
present, and deleting any one of the three artifact files makes it false
even if the others remain. -/
theorem C6_model_exists_all_three (fs : String → Bool) (dir : String) :
    (model_exists fs dir = true ↔
      fs (joinPath dir "vectorizer.joblib") = true ∧
      fs (joinPath dir "classifier.joblib") = true ∧
      fs (joinPath dir "config.joblib") = true) ∧
    (∀ f, f ∈ artifactFiles →
      model_exists (fun p => if p = joinPath dir f then false else fs p) dir = false) := by
  constructor
  · simp [model_exists, artifactFiles]
  · intro f hf
    simp only [artifactFiles, List.mem_cons, List.not_mem_nil, or_false] at hf
    rcases hf with rfl | rfl | rfl <;>
      simp [model_exists, artifactFiles, Bool.and_eq_false_iff]

/-- C7: saving a trained detector and loading the directory into a fresh
instance succeeds and yields a detector whose `predict` returns exactly
the same result (label and both probabilities) on every fixed text. -/
theorem predictS_depends (a b : AITextDetector) (t : String)
    (hi : a.is_trained = b.is_trained) (hv : a.vectorizer = b.vectorizer)
    (hc : a.classifier = b.classifier) :
    (a.predictS t).1 = (b.predictS t).1 := by
  unfold AITextDetector.predictS
  rw [hi, hv, hc]
  dsimp only
  repeat' split
  all_goals rfl

theorem C7_save_load_roundtrip (d : AITextDetector) (dir : String)
    (fs : BlobStore) (t : String) (h : d.is_trained = true) :
    load_model initDetector dir (save_model d dir fs) = .ok (loadedFrom d) ∧
    ((loadedFrom d).predictS t).1 = (d.predictS t).1 := by
  constructor
  · have hvc : joinPath dir "classifier.joblib" ≠ joinPath dir "vectorizer.joblib" :=
      fun hc => absurd (joinPath_inj dir hc) (by decide)
    have hcv : joinPath dir "config.joblib" ≠ joinPath dir "vectorizer.joblib" :=
      fun hc => absurd (joinPath_inj dir hc) (by decide)
    have hcc : joinPath dir "config.joblib" ≠ joinPath dir "classifier.joblib" :=
      fun hc => absurd (joinPath_inj dir hc) (by decide)
    unfold load_model save_model
    simp [hvc, hcv, hcc, loadedFrom]
  · exact predictS_depends (loadedFrom d) d t (by rw [h]; rfl) rfl rfl

/-- Witness for C7 at the toy trained detector. -/
theorem C7_roundtrip_witness :
    toyDetector.is_trained = true ∧
    load_model initDetector "model" (save_model toyDetector "model" emptyStore) =
      .ok (loadedFrom toyDetector) ∧
    ((loadedFrom toyDetector).predictS "sample").1 = (toyDetector.predictS "sample").1 := by
  have h := C7_save_load_roundtrip toyDetector "model" emptyStore "sample" rfl
  exact ⟨rfl, h.1, h.2⟩

/-- C8: running `train` a second time on the same dataset (the split seed
is fixed at 42 inside `train`) reports the same accuracy and saves
identical artifacts as the first run. -/
theorem C8_train_deterministic (lib : SkLib) (d : AITextDetector)
    (data : List (String × ℤ)) (ts : ℚ) (dir : String) (fs : BlobStore) :
    (train lib (train lib d data ts).1 data ts).2 = (train lib d data ts).2 ∧
    save_model (train lib (train lib d data ts).1 data ts).1 dir fs =
      save_model (train lib d data ts).1 dir fs := by
  exact ⟨rfl, rfl⟩

/-- C9: `predict` mutates no detector state: after the call, `is_trained`,
both model slots and all hyperparameters are unchanged. -/
theorem C9_predict_no_mutation (d : AITextDetector) (t : String)
    (_h : d.is_trained = true) :
    ((d.predictS t).2).is_trained = d.is_trained ∧
    ((d.predictS t).2).vectorizer = d.vectorizer ∧
    ((d.predictS t).2).classifier = d.classifier ∧
    ((d.predictS t).2).max_features = d.max_features ∧
    ((d.predictS t).2).ngram_range = d.ngram_range ∧
    ((d.predictS t).2).alpha = d.alpha := by
  rw [predictS_state_eq]
  exact ⟨rfl, rfl, rfl, rfl, rfl, rfl⟩

/-- Witness for C9 at the toy trained detector. -/
theorem C9_no_mutation_witness :
    toyDetector.is_trained = true ∧
    ((toyDetector.predictS "sample").2).is_trained = toyDetector.is_trained ∧
    ((toyDetector.predictS "sample").2).vectorizer = toyDetector.vectorizer := by
  have h := C9_predict_no_mutation toyDetector "sample" rfl
  exact ⟨rfl, h.1, h.2.1⟩

/-- C3: for a trained binary detector (classes 0 and 1, one strictly
positive per-class weight each, as produced by fitting on 0/1 labels),
a successful `predict` returns probabilities that sum to exactly 1 (hence
within the 1e-6 tolerance) with each lying in [0, 1]. -/
theorem C3_probabilities_sum_one (d : AITextDetector) (v : TfidfVectorizer)
    (c : MultinomialNB) (t label : String) (ai hp : ℚ)
    (ht : d.is_trained = true)
    (hv : d.vectorizer = some v) (hc : d.classifier = some c)
    (hcl : c.classes_ = [0, 1])
    (hlen : (c.scores (v.transform t)).length = 2)
    (hpos : ∀ w ∈ c.scores (v.transform t), 0 < w)
    (h : (d.predictS t).1 = .ok (label, ai, hp)) :
    ai + hp = 1 ∧ |ai + hp - 1| ≤ 1/1000000 ∧
    0 ≤ ai ∧ ai ≤ 1 ∧ 0 ≤ hp ∧ hp ≤ 1 := by
  obtain ⟨w0, w1, hs⟩ := List.length_eq_two.mp hlen
  have h0 : 0 < w0 := hpos w0 (by rw [hs]; exact List.mem_cons_self _ _)
  have h1 : 0 < w1 := hpos w1 (by rw [hs]; exact List.mem_cons_of_mem _ (List.mem_cons_self _ _))
  have hsumpos : 0 < w0 + w1 := by linarith
  have hne : w0 + w1 ≠ 0 := ne_of_gt hsumpos
  unfold AITextDetector.predictS at h
  rw [ht] at h
  simp only [MultinomialNB.predict_proba, hv, hc, hcl, hs, dictIndex, dictIndexAux] at h
  norm_num at h
  obtain ⟨-, hai, hhp⟩ := h
  subst hai; subst hhp
  have hsum : w1 / (w0 + w1) + w0 / (w0 + w1) = 1 := by
    rw [div_add_div_same]
    rw [add_comm w1 w0]
    exact div_self hne
  refine ⟨hsum, by rw [hsum]; norm_num, ?_, ?_, ?_, ?_⟩
  · exact div_nonneg (le_of_lt h1) (le_of_lt hsumpos)
  · exact (div_le_one hsumpos).mpr (by linarith)
  · exact div_nonneg (le_of_lt h0) (le_of_lt hsumpos)
  · exact (div_le_one hsumpos).mpr (by linarith)

/-- Witness for C3 at the toy trained detector: probabilities 3/4 and 1/4
sum to 1 and lie in [0, 1]. -/
theorem C3_sum_witness :
    (toyDetector.predictS "essay").1 = .ok ("AI", 3/4, 1/4) ∧
    ((3:ℚ)/4 + 1/4 = 1 ∧ |(3:ℚ)/4 + 1/4 - 1| ≤ 1/1000000 ∧
      (0:ℚ) ≤ 3/4 ∧ (3:ℚ)/4 ≤ 1 ∧ (0:ℚ) ≤ 1/4 ∧ (1:ℚ)/4 ≤ 1) := by
  have hpred : (toyDetector.predictS "essay").1 = .ok ("AI", 3/4, 1/4) := by
    norm_num [toyDetector, AITextDetector.predictS, toyNB, constVectorizer,
      MultinomialNB.predict_proba, dictIndex, dictIndexAux, initDetector]
  refine ⟨hpred, ?_⟩
  exact C3_probabilities_sum_one toyDetector constVectorizer toyNB "essay" "AI"
    (3/4) (1/4) rfl rfl rfl rfl rfl
    (by intro w hw; simp [toyNB] at hw; rcases hw with rfl | rfl <;> norm_num)
    hpred

theorem detInv_no_nullModel {d : AITextDetector} (hinv : DetInv d) :
    ∀ t, (d.predictS t).1 ≠ .error .nullModel := by
  intro t
  unfold AITextDetector.predictS
  by_cases hb : d.is_trained = false
  · simp [hb]
  · have hb' : d.is_trained = true := by revert hb; cases d.is_trained <;> simp
    obtain ⟨hvs, hcs⟩ := hinv hb'
    obtain ⟨v, hv⟩ := Option.isSome_iff_exists.mp hvs
    obtain ⟨c, hc⟩ := Option.isSome_iff_exists.mp hcs
    rw [hb']
    simp only [hv, hc]
    try dsimp only
    repeat' split
    all_goals simp

/-- Counterexample to C10 as stated: the operation sequence construct →
`save_model("model")` → `load_model("model")` reaches a state with
`is_trained = True` but both model slots `None` (saving an untrained
detector serializes `None` blobs, and loading sets `is_trained = True`
unconditionally), and `predict` then gets past its not-trained guard and
dereferences the null vectorizer. -/
theorem C10_counterexample :
    Reachable trivialLib badState ∧
    badState.1.is_trained = true ∧
    badState.1.vectorizer = none ∧
    badState.1.classifier = none ∧
    (badState.1.predictS "sample").1 = .error .nullModel := by
  refine ⟨?_, rfl, rfl, rfl, rfl⟩
  have h1 : Reachable trivialLib (initDetector, emptyStore) := Reachable.construct
  have h2 := Reachable.saveStep initDetector emptyStore "model" h1
  have hload : load_model initDetector "model" (save_model initDetector "model" emptyStore) =
      .ok badState.1 := by
    unfold load_model save_model joinPath badState
    rw [if_pos rfl]
    rw [if_neg (by decide), if_pos rfl]
    rw [if_neg (by decide), if_neg (by decide), if_pos rfl]
  exact Reachable.loadStep initDetector (save_model initDetector "model" emptyStore)
    "model" badState.1 h2 hload

/-- C10 (amended): along every operation sequence in which `save_model` is
only invoked on a trained detector, every state with `is_trained = True`
has non-null fitted vectorizer and classifier (and every artifact on disk
holds a real fitted object), so `predict` never dereferences a null model
after its not-trained guard passes.  The counterexample forces exactly the
carve-out for saving an untrained instance: loading artifacts written by
`save_model` on an untrained detector yields `is_trained = True` with null
models. -/
theorem C10_trained_invariant (lib : SkLib) (s : SysState)
    (h : ReachableT lib s) :
    DetInv s.1 ∧ StoreInv s.2 ∧
    (∀ t, (s.1.predictS t).1 ≠ .error .nullModel) := by
  have main : DetInv s.1 ∧ StoreInv s.2 := by
    induction h with
    | construct =>
      refine ⟨fun hh => ?_, fun p v hp => ?_, fun p c hp => ?_⟩
      · exact absurd hh (by simp [initDetector])
      · exact absurd hp (by simp [emptyStore])
      · exact absurd hp (by simp [emptyStore])
    | trainStep d fs data ts hr ih =>
      exact ⟨fun _ => ⟨rfl, rfl⟩, ih.2⟩
    | saveStep d fs dir hr hT ih =>
      refine ⟨ih.1, fun p v hp => ?_, fun p c hp => ?_⟩
      · unfold save_model at hp
        dsimp only at hp
        split_ifs at hp with h1 h2 h3
        · cases hp
          exact (ih.1 hT).1
        · exact absurd hp (by simp)
        · exact absurd hp (by simp)
        · exact ih.2.1 p v hp
      · unfold save_model at hp
        dsimp only at hp
        split_ifs at hp with h1 h2 h3
        · exact absurd hp (by simp)
        · cases hp
          exact (ih.1 hT).2
        · exact absurd hp (by simp)
        · exact ih.2.2 p c hp
    | loadStep d fs dir d2 hr hload ih =>
      unfold load_model at hload
      split at hload
      case _ v heqv =>
        split at hload
        case _ c heqc =>
          split at hload
          case _ mf ng a heqg =>
            cases hload
            exact ⟨fun _ => ⟨ih.2.1 _ v heqv, ih.2.2 _ c heqc⟩, ih.2⟩
          all_goals exact absurd hload (by simp)
        all_goals exact absurd hload (by simp)
      all_goals exact absurd hload (by simp)
    | predictStep d fs t hr ih =>
      rw [predictS_state_eq]
      exact ih
  exact ⟨main.1, main.2, detInv_no_nullModel main.1⟩

/-- Witness for C10 (amended) at a state reached by training the fresh
detector: the invariant holds and predict cannot hit a null model. -/
theorem C10_invariant_witness :
    ReachableT trivialLib (trainedToy, emptyStore) ∧
    DetInv trainedToy ∧ StoreInv emptyStore ∧
    (∀ t, (trainedToy.predictS t).1 ≠ .error .nullModel) := by
  have hr : ReachableT trivialLib (trainedToy, emptyStore) :=
    ReachableT.trainStep initDetector emptyStore [("a", 0), ("b", 1)] (1/5)
      ReachableT.construct
  exact ⟨hr, C10_trained_invariant trivialLib (trainedToy, emptyStore) hr⟩

/-- Witness for C6: on a filesystem with every file present, all three
artifacts make `model_exists` true, and deleting the vectorizer artifact
alone makes it false. -/
theorem C6_model_exists_witness :
    "vectorizer.joblib" ∈ artifactFiles ∧
    model_exists (fun _ => true) "model" = true ∧
    model_exists
      (fun p => if p = joinPath "model" "vectorizer.joblib" then false
                else (fun _ => true) p) "model" = false := by
  have h := C6_model_exists_all_three (fun _ => true) "model"
  refine ⟨by simp [artifactFiles], ?_, ?_⟩
  · exact h.1.mpr ⟨rfl, rfl, rfl⟩
  · exact h.2 "vectorizer.joblib" (by simp [artifactFiles])
